import Mathlib

/-!
Verification of the Geo-Assessment Matrix lookup core.

A shallow embedding of the lookup-and-render logic of `matrix.py` (latest
version) and `matrix_simple.py` (earlier version), together with the record
data prepared by `create_constraints_csv.py`.  Tables are modelled as a list
of column names plus rows of optional string cells (a `none` cell is a pandas
NA); a resolved feature record (a pandas `Series`) is an association list
from column names to optional string cells.
-/

namespace GeoMatrix

/-- A pandas cell holding TEXT data: `none` models a NA/NULL cell. -/
abbrev Cell := Option String

/-- A pandas DataFrame restricted to what the code uses: named columns and
rows of cells, each row aligned positionally with `columns`. -/
structure Table where
  columns : List String
  rows : List (List Cell)
deriving DecidableEq

/-- `DataFrame.empty`: true when the frame has no rows or no columns. -/
def Table.isEmpty (t : Table) : Bool :=
  t.rows.isEmpty || t.columns.isEmpty

/-- `pd.DataFrame()`: the empty frame returned by the loaders on failure. -/
def Table.emptyT : Table := ⟨[], []⟩

/-- A pandas `Series` (one resolved feature row): column name to cell. -/
abbrev Series := List (String × Cell)

/-- Positional cell access inside a row; a missing position is NA. -/
def cellAt (r : List Cell) (i : Nat) : Cell := (r.get? i).join

/-- `row[col]`: cell lookup by column name, via the first occurrence of the
name in the column list, as pandas does for distinct column labels. -/
def colCell (cols : List String) (r : List Cell) (c : String) : Cell :=
  match cols.indexOf? c with
  | some i => cellAt r i
  | none => none

/-- Python `str.strip()` / `str.lower()` / `str.split(';')` are embedded as
structurally recursive functions over the character list of a string, so that
concrete witnesses evaluate inside the kernel. -/
def pyStrip (s : String) : String :=
  String.mk (((s.data.dropWhile Char.isWhitespace).reverse.dropWhile
      Char.isWhitespace).reverse)

/-- Python `str.lower()` restricted to what the data contains. -/
def pyLower (s : String) : String := String.mk (s.data.map Char.toLower)

/-- Accumulator loop of `str.split(';')`. -/
def pySplitSemiAux : List Char → List Char → List String
  | [], acc => [String.mk acc.reverse]
  | c :: cs, acc =>
    if c = ';' then String.mk acc.reverse :: pySplitSemiAux cs []
    else pySplitSemiAux cs (c :: acc)

/-- Python `str.split(';')`. -/
def pySplitSemi (s : String) : List String := pySplitSemiAux s.data []

/-- `str(cell_value).strip().lower() == 'x'` guarded by `not pd.isna(...)`
(matrix.py line 559). -/
def isMarkedX (cell : Cell) : Bool :=
  match cell with
  | some v => pyLower (pyStrip v) == "x"
  | none => false

/-- The denylist of meta-columns excluded from constraint lists
(matrix.py line 562). -/
def metaDenylist : List String :=
  ["Unknown", "Potentially unsuitable", "Requires individual WTG siting investigation"]

/-- Row lookup of `get_constraints_for_feature` (matrix.py lines 545-550):
filter rows whose first-column cell equals the feature name exactly, then
take the first match. -/
def matchedRow (feature_name : String) (t : Table) : Option (List Cell) :=
  (t.rows.filter (fun r => decide (cellAt r 0 = some feature_name))).head?

/-- The per-row constraint extraction loop (matrix.py lines 552-567): walk the
columns after the first in order, keep the stripped name of each column whose
cell is marked `x`, provided the stripped name is nonempty and not denylisted. -/
def rowConstraints (cols : List String) (row : List Cell) : List String :=
  (cols.drop 1).filterMap (fun col =>
    if isMarkedX (colCell cols row col)
        && pyStrip col != ""
        && !(metaDenylist.contains (pyStrip col))
    then some (pyStrip col) else none)

/-- Embedding of `get_constraints_for_feature` (matrix.py lines 532-567). -/
def get_constraints_for_feature (feature_name : String) (constraints_data : Table) :
    List String :=
  if constraints_data.isEmpty then []
  else
    match matchedRow feature_name constraints_data with
    | none => []
    | some row => rowConstraints constraints_data.columns row

/-- Any name in an extracted constraint list passed the denylist test. -/
theorem mem_rowConstraints (cols : List String) (row : List Cell) (x : String)
    (hx : x ∈ rowConstraints cols row) :
    metaDenylist.contains x = false ∧ ∃ c ∈ cols.drop 1, x = pyStrip c := by
  unfold rowConstraints at hx
  rw [List.mem_filterMap] at hx
  obtain ⟨c, hc, hsome⟩ := hx
  by_cases hcond :
      (isMarkedX (colCell cols row c) && pyStrip c != ""
        && !(metaDenylist.contains (pyStrip c))) = true
  · rw [if_pos hcond] at hsome
    obtain ⟨-, hden⟩ := Bool.and_eq_true_iff.mp hcond
    have hxc : x = pyStrip c := (Option.some.injEq _ _).mp hsome.symm
    refine ⟨?_, c, hc, hxc⟩
    rw [hxc]
    exact Bool.not_eq_true' .. |>.mp hden
  · rw [if_neg hcond] at hsome
    exact absurd hsome (by simp)

/-- Membership in a constraint list factors through the denylist test. -/
theorem mem_gcff (f : String) (t : Table) (x : String)
    (hx : x ∈ get_constraints_for_feature f t) :
    metaDenylist.contains x = false ∧ ∃ c ∈ t.columns.drop 1, x = pyStrip c := by
  unfold get_constraints_for_feature at hx
  split at hx
  · exact absurd hx (List.not_mem_nil x)
  · cases hm : matchedRow f t with
    | none => rw [hm] at hx; exact absurd hx (List.not_mem_nil x)
    | some row => rw [hm] at hx; exact mem_rowConstraints _ _ _ hx

/-- C1: for every feature name and constraint table, the list returned by
`get_constraints_for_feature` never contains any of the denylisted
meta-column names, even when the corresponding cell is marked `x`. -/
theorem c1_denylist_excluded (f : String) (t : Table) :
    "Unknown" ∉ get_constraints_for_feature f t
    ∧ "Potentially unsuitable" ∉ get_constraints_for_feature f t
    ∧ "Requires individual WTG siting investigation" ∉ get_constraints_for_feature f t := by
  refine ⟨fun h => ?_, fun h => ?_, fun h => ?_⟩ <;>
    simpa [metaDenylist] using (mem_gcff f t _ h).1

/-- C2: constraint-row lookup is strict string equality on the first column:
when no row's first cell equals the feature name exactly, the extractor
returns the empty list (no prefix or substring fallback). -/
theorem c2_strict_equality_no_match (f : String) (t : Table)
    (h : ∀ r ∈ t.rows, cellAt r 0 ≠ some f) :
    get_constraints_for_feature f t = [] := by
  have hm : matchedRow f t = none := by
    unfold matchedRow
    rw [List.head?_eq_none_iff, List.filter_eq_nil_iff]
    intro r hr
    simp [h r hr]
  unfold get_constraints_for_feature
  split
  · rfl
  · rw [hm]

/-- An engineering-constraints fixture without a row for Peat. -/
def engNoPeatTable : Table :=
  ⟨["Geological feature inventory", "Poor drivability/refusal"],
   [[some "Sand", some "x"]]⟩

/-- Witness for C2: the engineering constraint extractor returns the empty
list for the feature name Peat (organic-rich) on a table where no row's first
column equals that name exactly. -/
theorem c2_witness :
    get_constraints_for_feature "Peat (organic-rich)" engNoPeatTable = [] :=
  c2_strict_equality_no_match "Peat (organic-rich)" engNoPeatTable (by decide)

/-- Embedding of `get_complete_feature_data` (matrix.py lines 495-512): `none`
when the table is empty or the name is the UI sentinel, otherwise the first
row whose `Geological_Feature` cell equals the name exactly, or `none`. -/
def get_complete_feature_data (feature_name : String) (geological_data : List Series) :
    Option Series :=
  if geological_data.isEmpty || feature_name == "No features match criteria" then none
  else
    (geological_data.filter
      (fun r => decide (r.lookup "Geological_Feature" = some (some feature_name)))).head?

/-- `FOUNDATION_TYPES` (matrix.py line 23). -/
def FOUNDATION_TYPES : List String := ["Piles", "Suction Caisson", "GBS", "Cables"]

/-- `FOUNDATION_COLUMN_MAP` (matrix.py lines 24-29). -/
def FOUNDATION_COLUMN_MAP : List (String × String) :=
  [("Piles", "Piles_Assessment"),
   ("Suction Caisson", "Suction_Caisson_Assessment"),
   ("GBS", "GBS_Assessment"),
   ("Cables", "Cables_Assessment")]

/-- Embedding of `get_assessment` (matrix.py lines 514-530; the identical
function appears in matrix_simple.py lines 158-173). -/
def get_assessment (feature_data : Option Series) (foundation_type : String) : String :=
  match feature_data with
  | none => "Data not available"
  | some fd =>
    match FOUNDATION_COLUMN_MAP.lookup foundation_type with
    | none => "Assessment not available"
    | some col_name =>
      match fd.lookup col_name with
      | none => "Assessment not available"
      | some none => "No assessment available"
      | some (some v) => v

/-- What the foundation-assessment render block displays for one feature:
either one assessment line per foundation type, or the single fixed
placeholder of the else branch. -/
inductive FoundationBlock
  | lines (entries : List (String × String))
  | placeholder (msg : String)
deriving DecidableEq

/-- The foundation-assessment render block (matrix.py lines 725-743): when the
resolved record is not None, one `get_assessment` line per foundation type in
`FOUNDATION_TYPES` order; otherwise the else branch renders a single
No assessment data available placeholder and `get_assessment` is never called. -/
def foundationAssessments (fd : Option Series) : FoundationBlock :=
  match fd with
  | some fdv =>
      FoundationBlock.lines
        (FOUNDATION_TYPES.map (fun ft => (ft, get_assessment (some fdv) ft)))
  | none => FoundationBlock.placeholder "No assessment data available"

/-- A key of `FOUNDATION_COLUMN_MAP` is a member of `FOUNDATION_TYPES`. -/
theorem mem_of_lookup_eq_some (ft : String) (c : String)
    (h : FOUNDATION_COLUMN_MAP.lookup ft = some c) : ft ∈ FOUNDATION_TYPES := by
  by_cases h1 : ft = "Piles"
  · simp [FOUNDATION_TYPES, h1]
  by_cases h2 : ft = "Suction Caisson"
  · simp [FOUNDATION_TYPES, h2]
  by_cases h3 : ft = "GBS"
  · simp [FOUNDATION_TYPES, h3]
  by_cases h4 : ft = "Cables"
  · simp [FOUNDATION_TYPES, h4]
  · exfalso
    have e1 : (ft == "Piles") = false := by simp [h1]
    have e2 : (ft == "Suction Caisson") = false := by simp [h2]
    have e3 : (ft == "GBS") = false := by simp [h3]
    have e4 : (ft == "Cables") = false := by simp [h4]
    simp [FOUNDATION_COLUMN_MAP, List.lookup, e1, e2, e3, e4] at h

/-- Shared case analysis of `get_assessment`: the three sentinels and the
pass-through case, each tied to its trigger. -/
theorem assessment_spec (fd : Series) (ft : String) :
    get_assessment none ft = "Data not available"
    ∧ (ft ∉ FOUNDATION_TYPES → get_assessment (some fd) ft = "Assessment not available")
    ∧ (∀ col, FOUNDATION_COLUMN_MAP.lookup ft = some col → fd.lookup col = none →
        get_assessment (some fd) ft = "Assessment not available")
    ∧ (∀ col, FOUNDATION_COLUMN_MAP.lookup ft = some col → fd.lookup col = some none →
        get_assessment (some fd) ft = "No assessment available")
    ∧ (∀ col v, FOUNDATION_COLUMN_MAP.lookup ft = some col → fd.lookup col = some (some v) →
        get_assessment (some fd) ft = v) := by
  refine ⟨rfl, ?_, ?_, ?_, ?_⟩
  · intro hnotin
    unfold get_assessment
    cases hl : FOUNDATION_COLUMN_MAP.lookup ft with
    | none => rfl
    | some c => exact absurd (mem_of_lookup_eq_some ft c hl) hnotin
  · intro col hcol hcell
    simp [get_assessment, hcol, hcell]
  · intro col hcol hcell
    simp [get_assessment, hcol, hcell]
  · intro col v hcol hcell
    simp [get_assessment, hcol, hcell]

/-- C10: `get_assessment` is total and distinguishes the failure cause with
three distinct sentinels: Data not available when the record is absent,
Assessment not available when the foundation type is outside the fixed set or
its column is missing from the record, No assessment available when the column
exists but the cell is null; for any other input it returns the cell contents
unchanged. -/
theorem c10_three_sentinels (fd : Series) (ft : String) :
    get_assessment none ft = "Data not available"
    ∧ (ft ∉ FOUNDATION_TYPES → get_assessment (some fd) ft = "Assessment not available")
    ∧ (∀ col, FOUNDATION_COLUMN_MAP.lookup ft = some col → fd.lookup col = none →
        get_assessment (some fd) ft = "Assessment not available")
    ∧ (∀ col, FOUNDATION_COLUMN_MAP.lookup ft = some col → fd.lookup col = some none →
        get_assessment (some fd) ft = "No assessment available")
    ∧ (∀ col v, FOUNDATION_COLUMN_MAP.lookup ft = some col → fd.lookup col = some (some v) →
        get_assessment (some fd) ft = v) :=
  assessment_spec fd ft

/-- Witness for C10: a foundation type outside the fixed set yields the
Assessment not available sentinel on a concrete record. -/
theorem c10_witness :
    get_assessment (some [("Piles_Assessment", some "Lower Constraint")]) "Pipelines"
      = "Assessment not available" :=
  (c10_three_sentinels [("Piles_Assessment", some "Lower Constraint")] "Pipelines").2.1
    (by decide)

/-- A features-table row whose key is the literal UI sentinel string. -/
def sentinelRow : Series :=
  [("Geological_Feature", some "No features match criteria")]

/-- Counterexample to C3: a feature whose name is the literal string
No features match criteria is present in the features table, yet the resolver
returns `none` rather than its record, because matrix.py line 504 short-circuits
on that reserved string before looking at the table. -/
theorem c3_counterexample_sentinel_name :
    (sentinelRow ∈ [sentinelRow]
      ∧ sentinelRow.lookup "Geological_Feature"
          = some (some "No features match criteria"))
    ∧ get_complete_feature_data "No features match criteria" [sentinelRow] = none :=
  ⟨⟨List.mem_singleton.mpr rfl, rfl⟩, rfl⟩

/-- C3 (amended): for every feature name other than the reserved sentinel
string, the resolver returns the first record whose `Geological_Feature`
equals the name exactly, and `none` when no record matches; in particular it
returns exactly one record for present names and the not-found sentinel for
absent ones, and it is total (never raises). -/
theorem c3_resolver_first_exact_match (name : String) (tbl : List Series)
    (hn : name ≠ "No features match criteria") :
    get_complete_feature_data name tbl
      = (tbl.filter
          (fun r => decide (r.lookup "Geological_Feature" = some (some name)))).head? := by
  unfold get_complete_feature_data
  cases tbl with
  | nil => simp
  | cons a l =>
    have hcond : ((a :: l).isEmpty || name == "No features match criteria") = false := by
      simp [List.isEmpty, hn]
    rw [hcond]
    simp

/-- Witness for C3: applying the amended resolver law at the concrete name
Sand and a concrete one-row table. -/
theorem c3_witness :
    get_complete_feature_data "Sand" [[("Geological_Feature", some "Sand")]]
      = ([[("Geological_Feature", some "Sand")]].filter
          (fun r => decide (r.lookup "Geological_Feature" = some (some "Sand")))).head? :=
  c3_resolver_first_exact_match "Sand" [[("Geological_Feature", some "Sand")]] (by decide)

/-- Counterexample to C4: for an unknown feature name the resolver returns
not-found, and the render block (matrix.py lines 725-743) takes its else
branch: it renders the single placeholder No assessment data available and
does not render four Data not available assessment fields. -/
theorem c4_counterexample_placeholder_render :
    foundationAssessments none
        = FoundationBlock.placeholder "No assessment data available"
    ∧ foundationAssessments none
        ≠ FoundationBlock.lines
            [("Piles", "Data not available"),
             ("Suction Caisson", "Data not available"),
             ("GBS", "Data not available"),
             ("Cables", "Data not available")] :=
  ⟨rfl, by decide⟩

/-- C4 (amended): for every resolved record and foundation type in the fixed
set, `get_assessment` returns the cell of the mapped assessment column when
that cell exists and is non-null, and otherwise one of the fixed fallback
sentinels; `get_assessment` itself returns Data not available for an absent
record, but the render block guards on the record being present: for an
unknown feature it renders the single No assessment data available
placeholder instead of four assessment fields. -/
theorem c4_assessment_fallback (fd : Series) (ft : String)
    (hft : ft ∈ FOUNDATION_TYPES) :
    ((∃ col v, FOUNDATION_COLUMN_MAP.lookup ft = some col
        ∧ fd.lookup col = some (some v)
        ∧ get_assessment (some fd) ft = v)
      ∨ get_assessment (some fd) ft = "Assessment not available"
      ∨ get_assessment (some fd) ft = "No assessment available")
    ∧ get_assessment none ft = "Data not available"
    ∧ foundationAssessments none
        = FoundationBlock.placeholder "No assessment data available" := by
  refine ⟨?_, rfl, rfl⟩
  have hcol : ∃ col, FOUNDATION_COLUMN_MAP.lookup ft = some col := by
    simp only [FOUNDATION_TYPES, List.mem_cons, List.mem_singleton] at hft
    rcases hft with h | h | h | (h | h)
    all_goals first
      | (subst h; exact ⟨_, rfl⟩)
      | exact absurd h (List.not_mem_nil ft)
  obtain ⟨col, hc⟩ := hcol
  cases hcell : fd.lookup col with
  | none =>
    right; left
    exact ((assessment_spec fd ft).2.2.1) col hc hcell
  | some cell =>
    cases cell with
    | none =>
      right; right
      exact ((assessment_spec fd ft).2.2.2.1) col hc hcell
    | some v =>
      left
      exact ⟨col, v, hc, hcell, ((assessment_spec fd ft).2.2.2.2) col v hc hcell⟩

/-- Witness for C4: the amended assessment law applied at the concrete
foundation type Piles and a concrete one-column record. -/
theorem c4_witness :
    ((∃ col v, FOUNDATION_COLUMN_MAP.lookup "Piles" = some col
        ∧ (([("Piles_Assessment", some "Lower Constraint")] : Series).lookup col
            = some (some v))
        ∧ get_assessment (some [("Piles_Assessment", some "Lower Constraint")]) "Piles" = v)
      ∨ get_assessment (some [("Piles_Assessment", some "Lower Constraint")]) "Piles"
          = "Assessment not available"
      ∨ get_assessment (some [("Piles_Assessment", some "Lower Constraint")]) "Piles"
          = "No assessment available")
    ∧ get_assessment none "Piles" = "Data not available"
    ∧ foundationAssessments none
        = FoundationBlock.placeholder "No assessment data available" :=
  c4_assessment_fallback [("Piles_Assessment", some "Lower Constraint")] "Piles" (by decide)

/-- Embedding of `get_active_constraints` (matrix_simple.py lines 199-210):
split the `Active_Constraints` cell on semicolons, strip each part, and keep
the nonempty parts; an absent column, a NA cell or an empty string yields the
empty list. -/
def get_active_constraints (feature_data : Option Series) : List String :=
  match feature_data with
  | none => []
  | some fd =>
    match fd.lookup "Active_Constraints" with
    | none => []
    | some none => []
    | some (some s) =>
      if s == "" then []
      else ((pySplitSemi s).map pyStrip).filter (fun c => c != "")

/-- The record for the feature Sand exactly as prepared by
`create_constraints_csv.py` (lines 114-126 of its `features_data` literal). -/
def sandRecord : Series :=
  [("Geological_Feature", some "Sand"),
   ("Setting", some "Sediments"),
   ("Process", some "Lithology"),
   ("Definition", some "Superficial deposits"),
   ("Piles_Assessment", some "Lower Constraint"),
   ("Suction_Caisson_Assessment", some "Moderate constraint"),
   ("GBS_Assessment", some "Higher Constraint"),
   ("Cables_Assessment", some "Lower Constraint"),
   ("Dominant_Constraint", some "Homogenous sediments"),
   ("Comments", some "Present-day sands may be related to mobile sediments. Dense sands could be problematic for suction buckets. Loose sands would be problematic for GBS."),
   ("Active_Constraints", some "Coarse soil units (including gravel)")]

/-- C7: on the prepared record for the feature Sand, the four foundation
assessments are Lower Constraint, Moderate constraint, Higher Constraint and
Lower Constraint for Piles, Suction Caisson, GBS and Cables respectively, and
the derived geological constraint list is exactly the singleton Coarse soil
units (including gravel). -/
theorem c7_sand_example :
    get_assessment (some sandRecord) "Piles" = "Lower Constraint"
    ∧ get_assessment (some sandRecord) "Suction Caisson" = "Moderate constraint"
    ∧ get_assessment (some sandRecord) "GBS" = "Higher Constraint"
    ∧ get_assessment (some sandRecord) "Cables" = "Lower Constraint"
    ∧ get_active_constraints (some sandRecord)
        = ["Coarse soil units (including gravel)"] :=
  ⟨rfl, rfl, rfl, rfl, by decide⟩

/-- The exception kinds distinguished by the matrix.py loaders. -/
inductive LoadErr
  | fileNotFound
  | databaseError (msg : String)
  | otherError (msg : String)
deriving DecidableEq

/-- The abstract backing store: each named table read either yields rows or
raises one of the modelled exceptions. -/
structure DataSource where
  geological_features : Except LoadErr (List Series)
  geological_constraints : Except LoadErr Table
  engineering_constraints : Except LoadErr Table

/-- The per-exception `st.error` message of `load_geological_data`. -/
def geoErrMessage : LoadErr → String
  | .fileNotFound =>
      "data/geological_data.gpkg not found. Please ensure the data file is in the correct location."
  | .databaseError m => "Database error loading geological data: " ++ m
  | .otherError m => "Error loading geological data from GeoPackage: " ++ m

/-- Embedding of `load_geological_data` (matrix.py lines 39-65): the rows on
success, an empty frame plus a user-visible message on any exception; total,
never propagating the exception. -/
def load_geological_data (src : DataSource) : List Series × Option String :=
  match src.geological_features with
  | .ok df => (df, none)
  | .error e => ([], some (geoErrMessage e))

/-- The per-exception `st.error` message of `load_constraint_data`. -/
def constraintErrMessage : LoadErr → String
  | .databaseError m => "Database error loading constraint data: " ++ m
  | .fileNotFound => "Error loading constraint data from GeoPackage: file not found"
  | .otherError m => "Error loading constraint data from GeoPackage: " ++ m

/-- Embedding of `load_constraint_data` (matrix.py lines 67-84): the
geological-constraints read runs first, then the engineering-constraints read,
inside one try block; an exception in either read is caught and yields the
pair of empty frames plus a message. -/
def load_constraint_data (src : DataSource) : (Table × Table) × Option String :=
  match src.geological_constraints with
  | .error e => ((Table.emptyT, Table.emptyT), some (constraintErrMessage e))
  | .ok g =>
    match src.engineering_constraints with
    | .error e => ((Table.emptyT, Table.emptyT), some (constraintErrMessage e))
    | .ok en => ((g, en), none)

/-- The exception kinds relevant to the matrix_simple.py CSV loader. -/
inductive CsvErr
  | fileNotFound
  | parserError (msg : String)
  | unicodeDecodeError (msg : String)
deriving DecidableEq

/-- Embedding of `load_geological_data` of matrix_simple.py (lines 12-23): it
catches only `FileNotFoundError` and `pd.errors.ParserError`; any other
exception — in particular a `UnicodeDecodeError` from a non-UTF-8 source —
propagates to the caller, modelled by the `Except.error` result. -/
def load_geological_data_simple (src : Except CsvErr (List Series)) :
    Except CsvErr (List Series × Option String) :=
  match src with
  | .ok df => .ok (df, none)
  | .error .fileNotFound =>
      .ok ([], some "geological_data_updated.csv not found. Please ensure the data file is in the correct location.")
  | .error (.parserError m) => .ok ([], some ("Error parsing CSV file: " ++ m))
  | .error (.unicodeDecodeError m) => .error (.unicodeDecodeError m)

/-- A nonempty geological-constraints table used by the C5 counterexample. -/
def geoOnlyTable : Table :=
  ⟨["Feature", "Soft soil units"], [[some "Soft mud", some "x"]]⟩

/-- A source in which the geological-constraints read succeeds and the
engineering-constraints read raises a database error. -/
def srcEngFails : DataSource :=
  { geological_features := .ok []
    geological_constraints := .ok geoOnlyTable
    engineering_constraints := .error (.databaseError "no such table: engineering_constraints") }

/-- Counterexample to C5: (1) in matrix.py, when the engineering-constraints
read fails, the geological-constraints table is returned empty even though its
own read succeeded with a nonempty table, so a load failure of one table does
prevent another table from being used; (2) the matrix_simple.py loader
propagates a `UnicodeDecodeError` on a non-UTF-8 source instead of returning
an empty result. -/
theorem c5_counterexample_coupled_failure :
    (srcEngFails.geological_constraints = Except.ok geoOnlyTable
      ∧ geoOnlyTable.rows ≠ []
      ∧ (load_constraint_data srcEngFails).1.1 = Table.emptyT)
    ∧ load_geological_data_simple (Except.error (CsvErr.unicodeDecodeError "invalid start byte"))
        = Except.error (CsvErr.unicodeDecodeError "invalid start byte") :=
  ⟨⟨rfl, by decide, rfl⟩, rfl⟩

/-- C5 (amended): the matrix.py loaders are total and degrade to empty frames
plus a user-visible message on any failure, and the features-table load is
decided only by the features read; but a failure of either constraint-table
read empties both constraint tables, and the matrix_simple.py loader catches
only missing-file and parse errors, propagating encoding errors. -/
theorem c5_loaders_degrade (src : DataSource) (csv : Except CsvErr (List Series)) :
    (∀ df, src.geological_features = Except.ok df → load_geological_data src = (df, none))
    ∧ (∀ e, src.geological_features = Except.error e →
        (load_geological_data src).1 = [] ∧ (load_geological_data src).2.isSome)
    ∧ (∀ g en, src.geological_constraints = Except.ok g →
        src.engineering_constraints = Except.ok en →
        load_constraint_data src = ((g, en), none))
    ∧ (∀ e, src.geological_constraints = Except.error e →
        (load_constraint_data src).1 = (Table.emptyT, Table.emptyT)
          ∧ (load_constraint_data src).2.isSome)
    ∧ (∀ g e, src.geological_constraints = Except.ok g →
        src.engineering_constraints = Except.error e →
        (load_constraint_data src).1 = (Table.emptyT, Table.emptyT)
          ∧ (load_constraint_data src).2.isSome)
    ∧ (∀ df, csv = Except.ok df → load_geological_data_simple csv = Except.ok (df, none))
    ∧ (csv = Except.error CsvErr.fileNotFound →
        ∃ m, load_geological_data_simple csv = Except.ok ([], some m))
    ∧ (∀ m, csv = Except.error (CsvErr.parserError m) →
        ∃ m2, load_geological_data_simple csv = Except.ok ([], some m2))
    ∧ (∀ m, csv = Except.error (CsvErr.unicodeDecodeError m) →
        load_geological_data_simple csv = Except.error (CsvErr.unicodeDecodeError m)) := by
  refine ⟨?_, ?_, ?_, ?_, ?_, ?_, ?_, ?_, ?_⟩
  · intro df h; simp [load_geological_data, h]
  · intro e h; simp [load_geological_data, h, geoErrMessage]
  · intro g en hg hen; simp [load_constraint_data, hg, hen]
  · intro e h; simp [load_constraint_data, h]
  · intro g e hg he; simp [load_constraint_data, hg, he]
  · intro df h; simp [load_geological_data_simple, h]
  · intro h
    exact ⟨"geological_data_updated.csv not found. Please ensure the data file is in the correct location.",
      by simp [load_geological_data_simple, h]⟩
  · intro m h
    exact ⟨"Error parsing CSV file: " ++ m, by simp [load_geological_data_simple, h]⟩
  · intro m h; simp [load_geological_data_simple, h]

/-- Witness for C5: both constraint reads succeeding on a concrete source
returns both tables unchanged with no message. -/
theorem c5_witness :
    load_constraint_data
        { geological_features := Except.ok []
          geological_constraints := Except.ok geoOnlyTable
          engineering_constraints := Except.ok engNoPeatTable }
      = ((geoOnlyTable, engNoPeatTable), none) :=
  (c5_loaders_degrade
      { geological_features := Except.ok []
        geological_constraints := Except.ok geoOnlyTable
        engineering_constraints := Except.ok engNoPeatTable }
      (Except.ok [])).2.2.1 geoOnlyTable engNoPeatTable rfl rfl

/-- A guarded `filterMap` that emits `g a` or nothing is a sublist of the
corresponding `map`. -/
theorem filterMap_guard_sublist_map {α β : Type} (p : α → Bool) (g : α → β)
    (l : List α) :
    List.Sublist (l.filterMap (fun a => if p a then some (g a) else none)) (l.map g) := by
  induction l with
  | nil => simp
  | cons a l ih =>
    rw [List.filterMap_cons, List.map_cons]
    by_cases h : p a
    · rw [if_pos h]
      exact ih.cons₂ (g a)
    · rw [if_neg h]
      exact ih.cons (g a)

/-- A constraint list is a sublist of the stripped constraint-column names. -/
theorem gcff_sublist (f : String) (t : Table) :
    List.Sublist (get_constraints_for_feature f t) ((t.columns.drop 1).map pyStrip) := by
  unfold get_constraints_for_feature
  split
  · exact List.nil_sublist _
  · cases hm : matchedRow f t with
    | none => exact List.nil_sublist _
    | some row => exact filterMap_guard_sublist_map _ _ _

/-- A table whose single constraint column carries a trailing space. -/
def trailingSpaceTable : Table :=
  ⟨["Feature", "Soft soil units "], [[some "Sand", some "x"]]⟩

/-- A table with two constraint columns that strip to the same name. -/
def dupStripTable : Table :=
  ⟨["Feature", "Rafts", "Rafts "], [[some "Sand", some "x", some "x"]]⟩

/-- Counterexample to C6: the extractor returns stripped column names, so
(1) on a table whose constraint column is named with a trailing space the
returned name is not among the declared columns, and (2) two declared columns
that strip to the same name yield a duplicated entry. -/
theorem c6_counterexample_stripped_columns :
    ("Soft soil units" ∈ get_constraints_for_feature "Sand" trailingSpaceTable
      ∧ "Soft soil units" ∉ trailingSpaceTable.columns)
    ∧ ¬ (get_constraints_for_feature "Sand" dupStripTable).Nodup := by
  decide

/-- C6 (amended): for every feature name and constraint table, the extracted
list is a sublist — hence a subset, in column order — of the
whitespace-stripped names of the declared constraint columns (all columns
except the first); and it has no duplicates whenever those stripped names are
pairwise distinct. -/
theorem c6_subset_order_nodup (f : String) (t : Table)
    (h : ((t.columns.drop 1).map pyStrip).Nodup) :
    List.Sublist (get_constraints_for_feature f t) ((t.columns.drop 1).map pyStrip)
    ∧ (get_constraints_for_feature f t).Nodup :=
  ⟨gcff_sublist f t, (h.sublist (gcff_sublist f t))⟩

/-- A small geological-constraints fixture with distinct stripped columns. -/
def sandGeoTable : Table :=
  ⟨["Geological Features", "Coarse soil units (including gravel)", "Unknown"],
   [[some "Sand", some "x", some "x"]]⟩

/-- Witness for C6: the amended invariant at a concrete table. -/
theorem c6_witness :
    List.Sublist (get_constraints_for_feature "Sand" sandGeoTable)
        ((sandGeoTable.columns.drop 1).map pyStrip)
    ∧ (get_constraints_for_feature "Sand" sandGeoTable).Nodup :=
  c6_subset_order_nodup "Sand" sandGeoTable (by decide)

/-- C8: constraint extraction is deterministic and order-preserving — two
calls to `get_constraints_for_feature` with the same feature name and the same
constraint table return identical ordered lists. -/
theorem c8_deterministic (f₁ f₂ : String) (t₁ t₂ : Table)
    (hf : f₁ = f₂) (ht : t₁ = t₂) :
    get_constraints_for_feature f₁ t₁ = get_constraints_for_feature f₂ t₂ := by
  rw [hf, ht]

/-- Witness for C8: two identical calls at a concrete input. -/
theorem c8_witness :
    get_constraints_for_feature "Sand" sandGeoTable
      = get_constraints_for_feature "Sand" sandGeoTable :=
  c8_deterministic "Sand" "Sand" sandGeoTable sandGeoTable rfl rfl

/-- The tables loaded at startup, threaded explicitly through every lookup:
the Python functions read these module-level globals and never assign to
them, so each state-passing translation returns its input state. -/
structure AppState where
  geological_data : List Series
  geo_constraints_data : Table
  eng_constraints_data : Table

/-- State-passing form of `get_complete_feature_data`. -/
def resolveFeatureSt (s : AppState) (name : String) : Option Series × AppState :=
  (get_complete_feature_data name s.geological_data, s)

/-- State-passing form of `get_assessment`. -/
def assessFeatureSt (s : AppState) (fd : Option Series) (ft : String) :
    String × AppState :=
  (get_assessment fd ft, s)

/-- State-passing form of the two constraint extractions of the render path
(matrix.py lines 678-679). -/
def constraintsForSt (s : AppState) (name : String) :
    (List String × List String) × AppState :=
  ((get_constraints_for_feature name s.geo_constraints_data,
    get_constraints_for_feature name s.eng_constraints_data), s)

/-- The full comparison render pass (matrix.py lines 653-743) in state-passing
form: resolve both features, derive both constraint pairs, then compute the
four assessments of each feature, threading the table state throughout. -/
def renderComparisonSt (s : AppState) (f1 f2 : String) :
    ((Option Series × Option Series)
      × ((List String × List String) × (List String × List String))
      × (List (String × String) × List (String × String)))
    × AppState :=
  let r1 := resolveFeatureSt s f1
  let r2 := resolveFeatureSt r1.2 f2
  let k1 := constraintsForSt r2.2 f1
  let k2 := constraintsForSt k1.2 f2
  let a1 := (FOUNDATION_TYPES.map (fun ft => (ft, (assessFeatureSt k2.2 r1.1 ft).1)), k2.2)
  let a2 := (FOUNDATION_TYPES.map (fun ft => (ft, (assessFeatureSt a1.2 r2.1 ft).1)), a1.2)
  (((r1.1, r2.1), (k1.1, k2.1), (a1.1, a2.1)), a2.2)

/-- C9: the loaded tables are never mutated at runtime — every lookup
operation, and the whole comparison render pass, returns the table state it
was given, for every input. -/
theorem c9_tables_never_mutated (s : AppState) (f1 f2 ft : String)
    (fd : Option Series) :
    (resolveFeatureSt s f1).2 = s
    ∧ (assessFeatureSt s fd ft).2 = s
    ∧ (constraintsForSt s f1).2 = s
    ∧ (renderComparisonSt s f1 f2).2 = s :=
  ⟨rfl, rfl, rfl, rfl⟩

end GeoMatrix
